import Mathlib

/-!
Shallow embedding of `terminal_interativo.py`: an interactive terminal that
forwards user lines to an agent runner and prints the final response.

The external runner is modelled as an oracle `String → EventStream`: for a
given query it yields a finite list of events, optionally followed by a
raised exception (the `err` field carries the exception message; `none`
means the event sequence completed normally).  Python strings are modelled
as Lean `String`; `str.strip()` and `str.lower()` are embedded below.
-/

namespace TerminalInterativo

/-- Whitespace test used by `str.strip()`, modelled by `Char.isWhitespace`. -/
def pyWs (c : Char) : Bool := c.isWhitespace

/-- Embedding of Python `str.strip()`: drop leading and trailing whitespace. -/
def pyStrip (s : String) : String :=
  ⟨List.rdropWhile pyWs (List.dropWhile pyWs s.data)⟩

/-- Embedding of Python `str.lower()` (ASCII case folding). -/
def pyLower (s : String) : String := ⟨s.data.map Char.toLower⟩

/-- One part of an event's content; `text` models `part.text`. -/
structure Part where
  text : String
deriving DecidableEq, Repr

/-- Content of an event: a list of parts (`event.content.parts`). -/
structure Content where
  parts : List Part
deriving DecidableEq, Repr

/-- One runner event, as inspected by `call_agent`:
`function_calls` models `event.get_function_calls()` (the names of the
requested tool invocations), `is_final` models `event.is_final_response()`,
and `content` models `event.content` (`none` when the content is `None`). -/
structure Event where
  function_calls : List String
  is_final : Bool
  content : Option Content
deriving DecidableEq, Repr

/-- The asynchronous event sequence produced by `runner.run_async` for one
turn: the events that were yielded, and, when `err = some m`, an exception
with message `m` raised after those events (partway through the turn). -/
structure EventStream where
  events : List Event
  err : Option String
deriving DecidableEq, Repr

/-- The fallback text `final_response_text` is initialised with (line 181). -/
def fallbackText : String := "Agent não forneceu uma resposta final."

/-- Body of the `async for` loop of `call_agent` (lines 189-193): the
accumulator is the pair (current `final_response_text`, lines printed so
far).  An event with function calls prints a progress notice for the first
call; otherwise, a final-response event with nonempty content parts
replaces `final_response_text` by the stripped text of the first part. -/
def eventStep (acc : String × List String) (e : Event) : String × List String :=
  match e.function_calls with
  | call :: _ => (acc.1, acc.2 ++ ["🔧 Executando: " ++ call])
  | [] =>
    if e.is_final then
      match e.content with
      | some c =>
        match c.parts with
        | p :: _ => (pyStrip p.text, acc.2)
        | [] => acc
      | none => acc
    else acc

/-- Embedding of `call_agent` (lines 179-197): fold the events; if the
stream raised, return the error string `"Erro: " ++ message` (line 197),
else the accumulated `final_response_text`.  The second component is the
list of progress lines printed while consuming the events. -/
def call_agent (s : EventStream) : String × List String :=
  match s.err with
  | none => s.events.foldl eventStep (fallbackText, [])
  | some m => ("Erro: " ++ m, (s.events.foldl eventStep (fallbackText, [])).2)

/-- The recognised exit phrases (line 218). -/
def exitPhrases : List String := ["sair", "quit", "exit", "q"]

/-- One unit of terminal input: a line typed by the user, or an interrupt
signal (KeyboardInterrupt) arriving while the loop awaits input. -/
inductive TermInput where
  | line (s : String)
  | interrupt
deriving DecidableEq, Repr

/-- One dispatch to the runner: the keyword arguments of `run_async`
(lines 184-188), with `new_message` standing for the wrapped query text. -/
structure Dispatch where
  user_id : String
  session_id : String
  new_message : String
deriving DecidableEq, Repr

/-- The constant `USER_ID_OPENAPI` (line 34). -/
def USER_ID_OPENAPI : String := "user_openapi_1"

/-- The constant `SESSION_ID_OPENAPI` (line 35), parameterised by the uuid
drawn once at module load. -/
def SESSION_ID_OPENAPI (uuid : String) : String := "session_openapi_" ++ uuid

/-- Embedding of the `while True` loop of `interactive_terminal`
(lines 214-234), run on a finite list of terminal inputs.  Returns the
printed lines and the dispatches made to the runner, in order.  An exit
phrase or an interrupt breaks the loop (remaining inputs are ignored);
blank input prints a warning and continues without dispatching; any other
line is dispatched with the fixed user/session identifiers. -/
def interactive_turns (uuid : String) (agent : String → EventStream) :
    List TermInput → List String × List Dispatch
  | [] => ([], [])
  | TermInput.interrupt :: _ => (["👋 Interrompido pelo usuário. Tchau!"], [])
  | TermInput.line s :: rest =>
    if pyLower (pyStrip s) ∈ exitPhrases then
      (["👋 Tchau! Até logo!"], [])
    else if pyStrip s = "" then
      ("⚠️  Por favor, digite algo!" :: (interactive_turns uuid agent rest).1,
        (interactive_turns uuid agent rest).2)
    else
      ("🤖 Agente: Processando..." ::
          (call_agent (agent (pyStrip s))).2
          ++ ["🤖 Agente: " ++ (call_agent (agent (pyStrip s))).1]
          ++ (interactive_turns uuid agent rest).1,
        Dispatch.mk USER_ID_OPENAPI (SESSION_ID_OPENAPI uuid) (pyStrip s)
          :: (interactive_turns uuid agent rest).2)

/-- The banner lines printed by `interactive_terminal` (lines 201-207) and
the two initialisation messages (lines 211-212). -/
def bannerLines : List String :=
  ["🐕 ===== TERMINAL INTERATIVO - PET STORE AGENT =====",
   "📋 Comandos disponíveis:",
   "   - Listar pets: \x27mostre os pets\x27, \x27quais pets estão disponíveis\x27",
   "   - Criar pet: \x27crie um gato chamado Mimi\x27, \x27adicione um cão Rex\x27",
   "   - Buscar pet: \x27mostre o pet 123\x27, \x27info do pet 456\x27",
   "   - Sair: \x27sair\x27, \x27quit\x27, \x27exit\x27",
   String.mk (List.replicate 60 '='),
   "✅ Sistema inicializado com sucesso!",
   "💬 Digite sua mensagem (ou \x27sair\x27 para terminar):"]

/-- Embedding of `interactive_terminal` (lines 200-234): print the banner,
then run the loop. -/
def interactive_terminal (uuid : String) (agent : String → EventStream)
    (inputs : List TermInput) : List String × List Dispatch :=
  (bannerLines ++ (interactive_turns uuid agent inputs).1,
    (interactive_turns uuid agent inputs).2)

/-- Python truthiness of `os.environ.get(...)`: `None` and `""` are falsy. -/
def pyTruthy : Option String → Bool
  | none => false
  | some s => !(s == "")

/-- The message of the ValueError raised when the key is missing (line 29). -/
def requiredKeyMsg : String :=
  "GOOGLE_API_KEY environment variable is required. Please set it before running the script."

/-- Embedding of a whole process run: the module-level credential check
(lines 28-29) runs first; if `GOOGLE_API_KEY` is falsy the ValueError is
raised and nothing else happens; otherwise the terminal runs and produces
its printed lines and dispatches. -/
def runProcess (apiKey : Option String) (uuid : String)
    (agent : String → EventStream) (inputs : List TermInput) :
    Except String (List String × List Dispatch) :=
  if pyTruthy apiKey then Except.ok (interactive_terminal uuid agent inputs)
  else Except.error requiredKeyMsg

/-! ### Helper lemmas about the embedded string operations -/

/-- Whitespace characters are fixed points of `Char.toLower`. -/
lemma toLower_of_ws {c : Char} (h : c.isWhitespace = true) : c.toLower = c := by
  simp only [Char.isWhitespace, Bool.or_eq_true, decide_eq_true_eq] at h
  rcases h with ((h | h) | h) | h <;> subst h <;> decide

/-- A string whose lowercasing is an exit phrase has no whitespace at all. -/
lemma all_not_ws_of_lower_mem_exit {s : String} (h : pyLower s ∈ exitPhrases) :
    ∀ c ∈ s.data, c.isWhitespace = false := by
  intro c hc
  by_contra hw
  rw [Bool.not_eq_false] at hw
  have hmem : c.toLower ∈ (pyLower s).data := List.mem_map_of_mem _ hc
  rw [toLower_of_ws hw] at hmem
  have hall : ∀ w ∈ exitPhrases, ∀ c ∈ w.data, c.isWhitespace = false := by decide
  exact absurd (hall _ h _ hmem) (by simp [hw])

/-- Stripping a string with no whitespace characters is the identity. -/
lemma pyStrip_eq_self_of_all_not_ws {s : String}
    (h : ∀ c ∈ s.data, c.isWhitespace = false) : pyStrip s = s := by
  obtain ⟨l⟩ := s
  show String.mk (List.rdropWhile pyWs (List.dropWhile pyWs l)) = String.mk l
  have h1 : List.dropWhile pyWs l = l := by
    rw [List.dropWhile_eq_self_iff]
    intro hl
    have := h _ (l.get_mem 0 hl)
    rw [List.get_eq_getElem] at this
    simp [pyWs, this]
  rw [h1]
  have h2 : List.rdropWhile pyWs l = l := by
    rw [List.rdropWhile_eq_self_iff]
    intro hl
    have := h _ (List.getLast_mem hl)
    simp [pyWs, this]
  rw [h2]

/-- Stripping a whitespace-only string yields the empty string. -/
lemma pyStrip_eq_empty_of_all_ws {s : String}
    (h : ∀ c ∈ s.data, c.isWhitespace = true) : pyStrip s = "" := by
  obtain ⟨l⟩ := s
  show String.mk (List.rdropWhile pyWs (List.dropWhile pyWs l)) = ""
  have h1 : List.dropWhile pyWs l = [] := by
    rw [List.dropWhile_eq_nil_iff]
    intro c hc
    simp [pyWs, h c hc]
  rw [h1, List.rdropWhile_nil]

/-- The head of a nonempty `dropWhile` result fails the predicate. -/
lemma dropWhile_head_false {α : Type} (p : α → Bool) :
    ∀ (l : List α) (a : α) (r : List α), List.dropWhile p l = a :: r → p a = false := by
  intro l
  induction l with
  | nil => intro a r h; simp [List.dropWhile] at h
  | cons c t ih =>
    intro a r h
    by_cases hc : p c
    · rw [List.dropWhile_cons_of_pos hc] at h
      exact ih _ _ h
    · rw [List.dropWhile_cons_of_neg hc] at h
      cases h
      simpa using hc

/-- Re-stripping from the front after a strip changes nothing. -/
lemma dropWhile_rdropWhile_dropWhile {α : Type} (p : α → Bool) (l : List α) :
    List.dropWhile p (List.rdropWhile p (List.dropWhile p l)) =
      List.rdropWhile p (List.dropWhile p l) := by
  cases hr : List.rdropWhile p (List.dropWhile p l) with
  | nil => rfl
  | cons a r =>
    obtain ⟨t, ht⟩ := List.rdropWhile_prefix p (List.dropWhile p l)
    rw [hr] at ht
    have ha : p a = false := by
      refine dropWhile_head_false p l a (r ++ t) ?_
      rw [← ht]
      simp
    rw [List.dropWhile_cons_of_neg (by simp [ha])]

/-- `pyStrip` is idempotent: a stripped string has no surrounding whitespace. -/
lemma pyStrip_idem (s : String) : pyStrip (pyStrip s) = pyStrip s := by
  obtain ⟨l⟩ := s
  show String.mk (List.rdropWhile pyWs (List.dropWhile pyWs
      (List.rdropWhile pyWs (List.dropWhile pyWs l)))) = _
  rw [dropWhile_rdropWhile_dropWhile, List.rdropWhile_idempotent]
  rfl

/-! ### Helper lemmas about event processing -/

/-- An event captures the turn output exactly when it carries no function
calls, is a final response, and has content with a nonempty parts list
(the `elif` guard of line 192). -/
def captures (e : Event) : Bool :=
  e.function_calls.isEmpty && e.is_final &&
    (match e.content with
     | some c => !c.parts.isEmpty
     | none => false)

/-- A non-capturing event leaves `final_response_text` unchanged. -/
lemma eventStep_fst_of_not_captures (acc : String × List String) (e : Event)
    (h : captures e = false) : (eventStep acc e).1 = acc.1 := by
  obtain ⟨fc, fin, co⟩ := e
  cases fc with
  | cons c cs => rfl
  | nil =>
    cases fin with
    | false => rfl
    | true =>
      cases co with
      | none => rfl
      | some c =>
        obtain ⟨parts⟩ := c
        cases parts with
        | nil => rfl
        | cons p ps => simp [captures] at h

/-- Folding over events none of which captures leaves the text unchanged. -/
lemma foldl_fst_of_no_captures :
    ∀ (evs : List Event) (acc : String × List String),
      (∀ e ∈ evs, captures e = false) → (evs.foldl eventStep acc).1 = acc.1 := by
  intro evs
  induction evs with
  | nil => intro acc _; rfl
  | cons e t ih =>
    intro acc h
    rw [List.foldl_cons, ih _ (fun x hx => h x (List.mem_cons_of_mem _ hx))]
    exact eventStep_fst_of_not_captures acc e (h e (List.mem_cons_self _ _))

/-- A non-final event never captures. -/
lemma captures_eq_false_of_not_final {e : Event} (h : e.is_final = false) :
    captures e = false := by
  simp [captures, h]

/-- When the stream completes normally and its last capturing event has
first part `p`, `call_agent` returns the stripped text of `p`. -/
lemma call_agent_capture_eq (pre post : List Event) (e : Event) (c : Content)
    (p : Part) (ps : List Part)
    (hfc : e.function_calls = []) (hf : e.is_final = true)
    (hc : e.content = some c) (hp : c.parts = p :: ps)
    (hpost : ∀ x ∈ post, captures x = false) :
    (call_agent (EventStream.mk (pre ++ e :: post) none)).1 = pyStrip p.text := by
  show ((pre ++ e :: post).foldl eventStep (fallbackText, [])).1 = _
  rw [List.foldl_append, List.foldl_cons, foldl_fst_of_no_captures post _ hpost]
  obtain ⟨fc, fin, co⟩ := e
  cases hfc
  cases hf
  cases hc
  obtain ⟨parts⟩ := c
  cases hp
  rfl

/-- A stream that raises makes `call_agent` return the error string. -/
lemma call_agent_err_eq {s : EventStream} {m : String} (h : s.err = some m) :
    (call_agent s).1 = "Erro: " ++ m := by
  obtain ⟨evs, err⟩ := s
  cases h
  rfl

/-- A string that lowercases to an exit phrase is unchanged by stripping. -/
lemma pyStrip_of_lower_mem_exit {s : String} (h : pyLower s ∈ exitPhrases) :
    pyStrip s = s :=
  pyStrip_eq_self_of_all_not_ws (all_not_ws_of_lower_mem_exit h)

/-! ### The claims -/

/-- C1 counterexample: an event marked as the final response that carries
the text "hello" but also carries a tool invocation does not have its text
become the turn's output — the fallback sentence is returned instead, so
the claim fails "regardless of whatever else the event carries". -/
theorem final_event_with_tool_calls_text_ignored :
    (Event.mk ["listPets"] true (some (Content.mk [Part.mk "hello"]))).is_final = true
    ∧ (Event.mk ["listPets"] true (some (Content.mk [Part.mk "hello"]))).content
        = some (Content.mk [Part.mk "hello"])
    ∧ (call_agent (EventStream.mk
        [Event.mk ["listPets"] true (some (Content.mk [Part.mk "hello"]))] none)).1
        = fallbackText
    ∧ fallbackText ≠ "hello" := by
  exact ⟨rfl, rfl, rfl, by decide⟩

/-- C1 (amended): if the event sequence completes normally and contains an
event marked as the final response that carries text and carries no tool
invocations, and no later event satisfies that condition, then the
stripped text of that event becomes the turn's output returned by
`call_agent` (an event that also carries tool invocations is handled by
the tool-call branch and its text is ignored). -/
theorem call_agent_last_plain_final_text (pre post : List Event) (e : Event)
    (c : Content) (p : Part) (ps : List Part)
    (hfc : e.function_calls = []) (hf : e.is_final = true)
    (hc : e.content = some c) (hp : c.parts = p :: ps)
    (hpost : ∀ x ∈ post, captures x = false) :
    (call_agent (EventStream.mk (pre ++ e :: post) none)).1 = pyStrip p.text :=
  call_agent_capture_eq pre post e c p ps hfc hf hc hp hpost

/-- C1 witness: a single plain final event carrying " olá " makes the turn
return "olá". -/
theorem call_agent_last_plain_final_text_witness :
    (call_agent (EventStream.mk
        [Event.mk [] true (some (Content.mk [Part.mk " olá "]))] none)).1 = "olá" :=
  (call_agent_last_plain_final_text [] []
      (Event.mk [] true (some (Content.mk [Part.mk " olá "])))
      (Content.mk [Part.mk " olá "]) (Part.mk " olá ") [] rfl rfl rfl rfl
      (by decide)).trans (by decide)

/-- C2: a turn whose event sequence completes normally and contains no
event marked as a final response returns the fixed fallback sentence,
which is not the empty string. -/
theorem call_agent_no_final_fallback (s : EventStream) (h1 : s.err = none)
    (h2 : ∀ e ∈ s.events, e.is_final = false) :
    (call_agent s).1 = fallbackText ∧ fallbackText ≠ "" := by
  constructor
  · obtain ⟨evs, err⟩ := s
    cases h1
    show (evs.foldl eventStep (fallbackText, [])).1 = fallbackText
    exact foldl_fst_of_no_captures evs _
      (fun e he => captures_eq_false_of_not_final (h2 e he))
  · decide

/-- C2 witness: a single non-final tool-call event yields the fallback. -/
theorem call_agent_no_final_fallback_witness :
    (call_agent (EventStream.mk [Event.mk ["createPet"] false none] none)).1
        = fallbackText
    ∧ fallbackText ≠ "" :=
  call_agent_no_final_fallback
    (EventStream.mk [Event.mk ["createPet"] false none] none) rfl (by decide)

/-- C3: when consuming the event sequence raises partway through, the
exception is caught at turn granularity: the turn's output is the error
marker "Erro: " followed by the message, and the loop goes on to process
the remaining inputs instead of terminating. -/
theorem turn_error_caught_loop_continues (uuid : String)
    (agent : String → EventStream) (q : String) (rest : List TermInput)
    (m : String)
    (h1 : (agent (pyStrip q)).err = some m)
    (h2 : ¬ pyStrip q = "")
    (h3 : ¬ pyLower (pyStrip q) ∈ exitPhrases) :
    interactive_turns uuid agent (TermInput.line q :: rest) =
      ("🤖 Agente: Processando..." ::
          (call_agent (agent (pyStrip q))).2
          ++ ["🤖 Agente: " ++ ("Erro: " ++ m)]
          ++ (interactive_turns uuid agent rest).1,
        Dispatch.mk USER_ID_OPENAPI (SESSION_ID_OPENAPI uuid) (pyStrip q)
          :: (interactive_turns uuid agent rest).2) := by
  simp only [interactive_turns]
  rw [if_neg h3, if_neg h2, call_agent_err_eq h1]

/-- C3 witness: a raising turn prints "Erro: boom" and the following exit
input is still processed. -/
theorem turn_error_caught_loop_continues_witness :
    interactive_turns "u" (fun _ => EventStream.mk [] (some "boom"))
        [TermInput.line "oi", TermInput.line "sair"] =
      (["🤖 Agente: Processando...", "🤖 Agente: Erro: boom",
          "👋 Tchau! Até logo!"],
        [Dispatch.mk "user_openapi_1" "session_openapi_u" "oi"]) :=
  (turn_error_caught_loop_continues "u" (fun _ => EventStream.mk [] (some "boom"))
      "oi" [TermInput.line "sair"] "boom" rfl (by decide) (by decide)).trans
    (by decide)

/-- C4: an input line that lowercases to a recognised exit phrase makes
the loop print the farewell and stop, ignoring the remaining inputs and
dispatching nothing to the runner. -/
theorem exit_phrase_no_dispatch (uuid : String) (agent : String → EventStream)
    (s : String) (rest : List TermInput) (h : pyLower s ∈ exitPhrases) :
    interactive_turns uuid agent (TermInput.line s :: rest) =
      (["👋 Tchau! Até logo!"], []) := by
  simp only [interactive_turns]
  rw [pyStrip_of_lower_mem_exit h, if_pos h]

/-- C4 witness: the upper-case input "SAIR" exits without dispatching,
ignoring a later input. -/
theorem exit_phrase_no_dispatch_witness :
    interactive_turns "u" (fun _ => EventStream.mk [] none)
        [TermInput.line "SAIR", TermInput.line "oi"] =
      (["👋 Tchau! Até logo!"], []) :=
  exit_phrase_no_dispatch "u" (fun _ => EventStream.mk [] none) "SAIR"
    [TermInput.line "oi"] (by decide)

/-- C5: an empty or whitespace-only input line triggers the warning and a
re-prompt: the remaining inputs are still processed and no dispatch is
added by this turn. -/
theorem blank_input_no_dispatch (uuid : String) (agent : String → EventStream)
    (s : String) (rest : List TermInput)
    (h : ∀ c ∈ s.data, c.isWhitespace = true) :
    interactive_turns uuid agent (TermInput.line s :: rest) =
      ("⚠️  Por favor, digite algo!" :: (interactive_turns uuid agent rest).1,
        (interactive_turns uuid agent rest).2) := by
  have hs : pyStrip s = "" := pyStrip_eq_empty_of_all_ws h
  simp only [interactive_turns]
  rw [hs, if_neg (by decide), if_pos rfl]

/-- C5 witness: the whitespace-only input "   " prints the warning and
produces no dispatch. -/
theorem blank_input_no_dispatch_witness :
    interactive_turns "u" (fun _ => EventStream.mk [] none)
        [TermInput.line "   "] =
      (["⚠️  Por favor, digite algo!"], []) :=
  (blank_input_no_dispatch "u" (fun _ => EventStream.mk [] none) "   " []
    (by decide)).trans (by decide)

/-- C6: every dispatch made by the loop across all turns of a process run
references the single fixed user identifier and the single session
identifier generated for that run, unchanged. -/
theorem single_user_session_ids (uuid : String) (agent : String → EventStream)
    (inputs : List TermInput) :
    ∀ d ∈ (interactive_turns uuid agent inputs).2,
      d.user_id = USER_ID_OPENAPI ∧ d.session_id = SESSION_ID_OPENAPI uuid := by
  induction inputs with
  | nil => intro d hd; simp [interactive_turns] at hd
  | cons i rest ih =>
    intro d hd
    cases i with
    | interrupt => simp [interactive_turns] at hd
    | line s =>
      simp only [interactive_turns] at hd
      by_cases h1 : pyLower (pyStrip s) ∈ exitPhrases
      · rw [if_pos h1] at hd
        simp at hd
      · rw [if_neg h1] at hd
        by_cases h2 : pyStrip s = ""
        · rw [if_pos h2] at hd
          exact ih d hd
        · rw [if_neg h2] at hd
          rcases List.mem_cons.mp hd with h | h
          · subst h
            exact ⟨rfl, rfl⟩
          · exact ih d h

/-- C6 witness: the dispatch of a concrete run carries the fixed ids. -/
theorem single_user_session_ids_witness :
    Dispatch.mk "user_openapi_1" "session_openapi_u" "oi"
        ∈ (interactive_turns "u" (fun _ => EventStream.mk [] none)
            [TermInput.line "oi"]).2
    ∧ "user_openapi_1" = USER_ID_OPENAPI
    ∧ "session_openapi_u" = SESSION_ID_OPENAPI "u" :=
  ⟨by decide,
    single_user_session_ids "u" (fun _ => EventStream.mk [] none)
      [TermInput.line "oi"]
      (Dispatch.mk "user_openapi_1" "session_openapi_u" "oi") (by decide)⟩

/-- C7: when the credential environment variable is absent, the process
run raises the descriptive ValueError and produces nothing else: no
banner line is printed and the interaction loop is never entered. -/
theorem missing_api_key_fatal (uuid : String) (agent : String → EventStream)
    (inputs : List TermInput) :
    runProcess none uuid agent inputs = Except.error requiredKeyMsg
    ∧ ∀ tr, runProcess none uuid agent inputs ≠ Except.ok tr := by
  refine ⟨rfl, ?_⟩
  intro tr h
  exact Except.noConfusion h

/-- C8: scenario — a tool-call event naming "listPets" followed by a final
event with text "Aqui estão os pets" makes `call_agent` print the progress
notice for listPets and return the final text, and the terminal turn
displays that text after the notice. -/
theorem tool_call_notice_scenario :
    call_agent (EventStream.mk
        [Event.mk ["listPets"] false none,
         Event.mk [] true (some (Content.mk [Part.mk "Aqui estão os pets"]))]
        none) =
      ("Aqui estão os pets", ["🔧 Executando: listPets"])
    ∧ interactive_turns "u"
        (fun _ => EventStream.mk
          [Event.mk ["listPets"] false none,
           Event.mk [] true (some (Content.mk [Part.mk "Aqui estão os pets"]))]
          none)
        [TermInput.line "mostre os pets"] =
      (["🤖 Agente: Processando...", "🔧 Executando: listPets",
          "🤖 Agente: Aqui estão os pets"],
        [Dispatch.mk "user_openapi_1" "session_openapi_u" "mostre os pets"]) := by
  exact ⟨by decide, by decide⟩

/-- C9: an interrupt signal arriving while the loop awaits input makes the
loop print the farewell and terminate gracefully — the remaining inputs
are ignored, no dispatch happens, and no exception escapes (the loop
totally returns its outputs). -/
theorem interrupt_graceful_farewell (uuid : String)
    (agent : String → EventStream) (rest : List TermInput) :
    interactive_turns uuid agent (TermInput.interrupt :: rest) =
      (["👋 Interrompido pelo usuário. Tchau!"], []) := rfl

/-- C10: the final response text is stripped before being returned: the
turn's output equals the stripped text of the capturing final event, the
output is a fixed point of stripping (no surrounding whitespace), and a
whitespace-only final text yields the empty string, not the fallback
(which is nonempty). -/
theorem call_agent_final_text_stripped (pre post : List Event) (e : Event)
    (c : Content) (p : Part) (ps : List Part)
    (hfc : e.function_calls = []) (hf : e.is_final = true)
    (hc : e.content = some c) (hp : c.parts = p :: ps)
    (hpost : ∀ x ∈ post, captures x = false) :
    (call_agent (EventStream.mk (pre ++ e :: post) none)).1 = pyStrip p.text
    ∧ pyStrip ((call_agent (EventStream.mk (pre ++ e :: post) none)).1)
        = (call_agent (EventStream.mk (pre ++ e :: post) none)).1
    ∧ ((∀ ch ∈ p.text.data, ch.isWhitespace = true) →
        (call_agent (EventStream.mk (pre ++ e :: post) none)).1 = "")
    ∧ fallbackText ≠ "" := by
  have key := call_agent_capture_eq pre post e c p ps hfc hf hc hp hpost
  refine ⟨key, ?_, ?_, by decide⟩
  · rw [key]
    exact pyStrip_idem _
  · intro hws
    rw [key]
    exact pyStrip_eq_empty_of_all_ws hws

/-- C10 witness: a final event whose only part is "   " makes the turn
return the empty string, which differs from the nonempty fallback. -/
theorem call_agent_final_text_stripped_witness :
    (call_agent (EventStream.mk
        [Event.mk [] true (some (Content.mk [Part.mk "   "]))] none)).1 = ""
    ∧ fallbackText ≠ "" :=
  ⟨(call_agent_final_text_stripped [] []
      (Event.mk [] true (some (Content.mk [Part.mk "   "])))
      (Content.mk [Part.mk "   "]) (Part.mk "   ") [] rfl rfl rfl rfl
      (by decide)).2.2.1 (by decide), by decide⟩

end TerminalInterativo
